import Mathlib

/-!
Shallow embedding of `src/stub.c` of the microseh repository: the
structured-exception-handling trampoline `__microseh_HandlerStub`, its
status macros, the `__except` filter expression, and the build-time
architecture-selection preprocessor logic.

Modelling choices
* Machine memory holding caller-supplied `EXCEPTION` records is a total map
  from addresses (`Nat`) to `EXCEPTION` values; address `0` is the NULL
  pointer.
* The callback (`ProcExecutor` applied to `Proc`) is an arbitrary function
  from the opaque context and the entry memory to an execution outcome —
  either a normal return or a structured exception carrying the value the
  platform accessor `_exception_code()` (an `unsigned long`) reports for it —
  together with the memory as the callback left it.  SEH dispatch semantics
  (the `__try` region catching the fault and running the filter/handler) is
  what the trampoline definition below embeds.
* `uint32_t` values are `Nat` taken modulo `UINT32_MOD = 2^32` where the C
  code truncates.
* The result of the trampoline records, besides the returned status and the
  final memory, the list of addresses the trampoline itself wrote through
  (the single `Exception->Code = Code;` store), so that "the output slot is
  written / left untouched" is directly expressible.
-/

/-- `#define MS_SUCCEEDED 0x0` -/
def MS_SUCCEEDED : Nat := 0x0

/-- `#define MS_CATCHED 0x1` -/
def MS_CATCHED : Nat := 0x1

/-- `#define EXCEPTION_EXECUTE_HANDLER 1` -/
def EXCEPTION_EXECUTE_HANDLER : Nat := 1

/-- Modulus of the C type `uint32_t`. -/
def UINT32_MOD : Nat := 2 ^ 32

/-- `typedef struct _EXCEPTION { uint32_t Code; } EXCEPTION, *PEXCEPTION;` -/
structure EXCEPTION where
  Code : Nat
  deriving DecidableEq, Repr

/-- Memory of caller-owned `EXCEPTION` records: address 0 is NULL. -/
def Mem : Type := Nat → EXCEPTION

/-- Pointwise store into memory. -/
def memStore (m : Mem) (a : Nat) (v : EXCEPTION) : Mem :=
  fun x => if x = a then v else m x

/-- Outcome of executing the callback inside the `__try` region: either a
normal return, or a structured exception whose platform code is the
`unsigned long` value that the accessor `_exception_code()` returns while
the exception is being dispatched. -/
inductive ExecOutcome where
  | normal : ExecOutcome
  | exception (code : Nat) : ExecOutcome
  deriving DecidableEq, Repr

/-- A callback: `ProcExecutor` applied to the opaque context `Proc`.  It
receives the context pointer and the memory at entry, and produces its
execution outcome plus the memory as it left it (its own side effects). -/
def Callback (Ctx : Type) : Type :=
  Ctx → Mem → ExecOutcome × Mem

/-- Result of one trampoline invocation: the `uint32_t` status returned,
the final memory, and the addresses the trampoline itself wrote through
(not counting writes done by the callback). -/
structure StubResult where
  status : Nat
  mem : Mem
  writes : List Nat

/-- The `__except` filter expression
`(Code = GetExceptionCode(), EXCEPTION_EXECUTE_HANDLER)`: evaluated at
exception-dispatch time, it stores the accessor value into the `uint32_t`
local `Code` (truncating the `unsigned long` modulo `2^32`) and yields the
disposition `EXCEPTION_EXECUTE_HANDLER`, unconditionally, for every
exception code.  First component: captured `Code`; second: disposition. -/
def exceptFilter (exceptionCode : Nat) : Nat × Nat :=
  (exceptionCode % UINT32_MOD, EXCEPTION_EXECUTE_HANDLER)

/-- The `__except` handler body, run after the filter chose
`EXCEPTION_EXECUTE_HANDLER`.  It sees only the filter-captured `uint32_t`
`Code`, sets `Result = MS_CATCHED`, and, if `Exception != NULL`, performs
`Exception->Code = Code;`.  Returns the status together with the memory and
the trampoline's own write trace. -/
def exceptHandlerBody (capturedCode : Nat) (Exception : Nat) (m : Mem) :
    StubResult :=
  if Exception ≠ 0 then
    { status := MS_CATCHED
      mem := memStore m Exception { Code := capturedCode }
      writes := [Exception] }
  else
    { status := MS_CATCHED, mem := m, writes := [] }

/-- `uint32_t __microseh_HandlerStub(PPROC_EXECUTOR ProcExecutor, void* Proc,
PEXCEPTION Exception)`, shallowly embedded.  `cb` is the callback
(`ProcExecutor` with its context parameter still open), `Proc` the opaque
context handed through unmodified, `Exception` the record address (0 =
NULL), `m` the memory at entry.  The `__try` region runs `cb Proc m`; on a
normal return the region is exited normally and `Result` is still
`MS_SUCCEEDED`; on a structured exception the filter captures the code and
the handler body runs. -/
def microseh_HandlerStub {Ctx : Type} (cb : Callback Ctx) (Proc : Ctx)
    (Exception : Nat) (m : Mem) : StubResult :=
  match cb Proc m with
  | (ExecOutcome.normal, m1) =>
      { status := MS_SUCCEEDED, mem := m1, writes := [] }
  | (ExecOutcome.exception code, m1) =>
      exceptHandlerBody (exceptFilter code).1 Exception m1

/-! Build-time architecture selection (`TG_ARCH`). -/

/-- `#define TG_ARCH_X86 1` -/
def TG_ARCH_X86 : Nat := 1

/-- `#define TG_ARCH_X64 2` -/
def TG_ARCH_X64 : Nat := 2

/-- `#define TG_ARCH_ARM64 3` -/
def TG_ARCH_ARM64 : Nat := 3

/-- `#define TG_ARCH_UNKNOWN 4` -/
def TG_ARCH_UNKNOWN : Nat := 4

/-- The compiler-defined target macros tested by the preprocessor
conditionals in `stub.c`. -/
structure BuildFlags where
  m_ix86 : Bool
  m_x64 : Bool
  m_amd64 : Bool
  m_arm64 : Bool
  deriving DecidableEq, Repr

/-- The preprocessor chain selecting `TG_ARCH`:
`#if defined(_M_IX86) ... #elif defined(_M_X64) || defined(_M_AMD64) ...
#elif defined(_M_ARM64) ... #else TG_ARCH_UNKNOWN`. -/
def TG_ARCH (f : BuildFlags) : Nat :=
  if f.m_ix86 then TG_ARCH_X86
  else if f.m_x64 || f.m_amd64 then TG_ARCH_X64
  else if f.m_arm64 then TG_ARCH_ARM64
  else TG_ARCH_UNKNOWN

/-- Calling-convention tag attached to the callback type and to the
trampoline's exported signature, one per build-time architecture case. -/
inductive CallingConv where
  | convX86 : CallingConv
  | convX64 : CallingConv
  | convArm64 : CallingConv
  | convUnknown : CallingConv
  deriving DecidableEq, Repr

/-- Modelled from the spec: the foreign-caller-side declaration that picks
the calling-convention tag for `PPROC_EXECUTOR` and for
`__microseh_HandlerStub` per target architecture is not part of `src/`
(only the `TG_ARCH` detection macros are); per the spec it is a build-time
selection over the three named architectures plus the unknown/default
fallback, a pure function of the build-time architecture value with no
runtime input. -/
def selectedConv (f : BuildFlags) : CallingConv :=
  if TG_ARCH f = TG_ARCH_X86 then CallingConv.convX86
  else if TG_ARCH f = TG_ARCH_X64 then CallingConv.convX64
  else if TG_ARCH f = TG_ARCH_ARM64 then CallingConv.convArm64
  else CallingConv.convUnknown

/-! Concrete callbacks and memories used by the witness theorems. -/

/-- An entry memory pre-filled with a sentinel code. -/
def memInit : Mem := fun _ => { Code := 0xDEAD }

/-- A callback that returns normally and leaves memory untouched. -/
def cbNormal : Callback Unit := fun _ m => (ExecOutcome.normal, m)

/-- A second, syntactically different callback agreeing with `cbNormal`
at the entry state used by the witnesses. -/
def cbNormal2 : Callback Unit := fun _ _ => (ExecOutcome.normal, memInit)

/-- A callback that raises a structured exception with the access-violation
code `0xC0000005`, leaving memory untouched. -/
def cbFault : Callback Unit := fun _ m => (ExecOutcome.exception 0xC0000005, m)

/-- Claim C1: a callback that returns normally makes the trampoline return
`MS_SUCCEEDED`, the trampoline itself writes nothing, the final memory is
exactly the memory the callback left, and in particular a caller-supplied
record the callback did not touch keeps its sentinel value. -/
theorem handlerStub_normal_succeeds {Ctx : Type} (cb : Callback Ctx)
    (Proc : Ctx) (Exception : Nat) (m : Mem)
    (h : (cb Proc m).1 = ExecOutcome.normal) :
    (microseh_HandlerStub cb Proc Exception m).status = MS_SUCCEEDED ∧
    (microseh_HandlerStub cb Proc Exception m).writes = [] ∧
    (microseh_HandlerStub cb Proc Exception m).mem = (cb Proc m).2 ∧
    ((cb Proc m).2 Exception = m Exception →
      (microseh_HandlerStub cb Proc Exception m).mem Exception = m Exception) := by
  rcases hcb : cb Proc m with ⟨o, m1⟩
  cases o with
  | normal => simp [microseh_HandlerStub, hcb]
  | exception c => rw [hcb] at h; exact absurd h (by simp)

/-- Witness for C1 at a concrete normal callback and sentinel memory. -/
theorem handlerStub_normal_succeeds_witness :
    (microseh_HandlerStub cbNormal () 5 memInit).status = MS_SUCCEEDED ∧
    (microseh_HandlerStub cbNormal () 5 memInit).writes = [] ∧
    (microseh_HandlerStub cbNormal () 5 memInit).mem = (cbNormal () memInit).2 ∧
    ((cbNormal () memInit).2 5 = memInit 5 →
      (microseh_HandlerStub cbNormal () 5 memInit).mem 5 = memInit 5) :=
  handlerStub_normal_succeeds cbNormal () 5 memInit rfl

/-- Claim C2: a callback that raises a structured exception makes the
trampoline return `MS_CATCHED`, and when the record reference is non-null
the record's `Code` field is populated with the (non-zero, 32-bit) platform
exception code of the fault that was raised. -/
theorem handlerStub_fault_populates {Ctx : Type} (cb : Callback Ctx)
    (Proc : Ctx) (Exception : Nat) (m : Mem) (c : Nat)
    (hf : (cb Proc m).1 = ExecOutcome.exception c)
    (hp : Exception ≠ 0) (h0 : 0 < c) (hlt : c < UINT32_MOD) :
    (microseh_HandlerStub cb Proc Exception m).status = MS_CATCHED ∧
    ((microseh_HandlerStub cb Proc Exception m).mem Exception).Code = c ∧
    ((microseh_HandlerStub cb Proc Exception m).mem Exception).Code ≠ 0 := by
  rcases hcb : cb Proc m with ⟨o, m1⟩
  cases o with
  | normal => rw [hcb] at hf; exact absurd hf (by simp)
  | exception c' =>
      rw [hcb] at hf
      have hcc : c' = c := by simpa using hf
      subst hcc
      simp [microseh_HandlerStub, hcb, exceptHandlerBody, exceptFilter,
        memStore, hp, Nat.mod_eq_of_lt hlt]
      omega

/-- Witness for C2: the faulting callback with code `0xC0000005` and a
non-null record reference. -/
theorem handlerStub_fault_populates_witness :
    (microseh_HandlerStub cbFault () 5 memInit).status = MS_CATCHED ∧
    ((microseh_HandlerStub cbFault () 5 memInit).mem 5).Code = 0xC0000005 ∧
    ((microseh_HandlerStub cbFault () 5 memInit).mem 5).Code ≠ 0 :=
  handlerStub_fault_populates cbFault () 5 memInit 0xC0000005 rfl
    (by decide) (by decide) (by norm_num [UINT32_MOD])

/-- Claim C3: the trampoline writes through the record reference if and
only if the returned status is `MS_CATCHED` and the reference is non-null
(and then the one write is exactly at that reference); every address the
trampoline did not write keeps the value the callback left there. -/
theorem handlerStub_write_iff {Ctx : Type} (cb : Callback Ctx) (Proc : Ctx)
    (Exception : Nat) (m : Mem) :
    ((microseh_HandlerStub cb Proc Exception m).writes ≠ [] ↔
      (microseh_HandlerStub cb Proc Exception m).status = MS_CATCHED ∧
        Exception ≠ 0) ∧
    ((microseh_HandlerStub cb Proc Exception m).writes ≠ [] →
      (microseh_HandlerStub cb Proc Exception m).writes = [Exception]) ∧
    (∀ a, a ∉ (microseh_HandlerStub cb Proc Exception m).writes →
      (microseh_HandlerStub cb Proc Exception m).mem a = (cb Proc m).2 a) := by
  rcases hcb : cb Proc m with ⟨o, m1⟩
  cases o with
  | normal =>
      simp [microseh_HandlerStub, hcb, MS_SUCCEEDED, MS_CATCHED]
  | exception c =>
      by_cases hp : Exception = 0
      · subst hp
        simp [microseh_HandlerStub, hcb, exceptHandlerBody]
      · simp [microseh_HandlerStub, hcb, exceptHandlerBody, hp, memStore]
        intro a ha
        simp [ha]

/-- Witness for C3 at the concrete faulting callback, instantiating the
untouched-address part at address `3`. -/
theorem handlerStub_write_iff_witness :
    ((microseh_HandlerStub cbFault () 5 memInit).writes ≠ [] ↔
      (microseh_HandlerStub cbFault () 5 memInit).status = MS_CATCHED ∧
        (5 : Nat) ≠ 0) ∧
    (microseh_HandlerStub cbFault () 5 memInit).mem 3 =
      (cbFault () memInit).2 3 :=
  ⟨(handlerStub_write_iff cbFault () 5 memInit).1,
    (handlerStub_write_iff cbFault () 5 memInit).2.2 3 (by decide)⟩

/-- Claim C4: a faulting callback invoked with a null record reference
still yields `MS_CATCHED`, the trampoline performs no write at all, and
the memory is exactly what the callback left. -/
theorem handlerStub_null_ref {Ctx : Type} (cb : Callback Ctx) (Proc : Ctx)
    (m : Mem) (c : Nat)
    (hf : (cb Proc m).1 = ExecOutcome.exception c) :
    (microseh_HandlerStub cb Proc 0 m).status = MS_CATCHED ∧
    (microseh_HandlerStub cb Proc 0 m).writes = [] ∧
    (microseh_HandlerStub cb Proc 0 m).mem = (cb Proc m).2 := by
  rcases hcb : cb Proc m with ⟨o, m1⟩
  cases o with
  | normal => rw [hcb] at hf; exact absurd hf (by simp)
  | exception c' =>
      simp [microseh_HandlerStub, hcb, exceptHandlerBody]

/-- Witness for C4: the faulting callback with the NULL record address. -/
theorem handlerStub_null_ref_witness :
    (microseh_HandlerStub cbFault () 0 memInit).status = MS_CATCHED ∧
    (microseh_HandlerStub cbFault () 0 memInit).writes = [] ∧
    (microseh_HandlerStub cbFault () 0 memInit).mem = (cbFault () memInit).2 :=
  handlerStub_null_ref cbFault () memInit 0xC0000005 rfl

/-- Claim C5: every invocation of the trampoline returns exactly one of
the two status values `MS_SUCCEEDED = 0` and `MS_CATCHED = 1`. -/
theorem handlerStub_status_binary {Ctx : Type} (cb : Callback Ctx)
    (Proc : Ctx) (Exception : Nat) (m : Mem) :
    (microseh_HandlerStub cb Proc Exception m).status = MS_SUCCEEDED ∨
    (microseh_HandlerStub cb Proc Exception m).status = MS_CATCHED := by
  rcases hcb : cb Proc m with ⟨o, m1⟩
  cases o with
  | normal => simp [microseh_HandlerStub, hcb]
  | exception c =>
      by_cases hp : Exception = 0 <;>
        simp [microseh_HandlerStub, hcb, exceptHandlerBody, hp]

/-- Claim C6: the `__except` filter yields `EXCEPTION_EXECUTE_HANDLER` for
every exception code, with no discrimination by exception type, so for
every faulting callback the handler activates and the trampoline returns
`MS_CATCHED` (the total codomain `StubResult` carries no exception, so no
structured exception escapes past the trampoline in the model). -/
theorem handlerStub_catch_all {Ctx : Type} (cb : Callback Ctx) (Proc : Ctx)
    (Exception : Nat) (m : Mem) (c : Nat)
    (hf : (cb Proc m).1 = ExecOutcome.exception c) :
    (exceptFilter c).2 = EXCEPTION_EXECUTE_HANDLER ∧
    (microseh_HandlerStub cb Proc Exception m).status = MS_CATCHED := by
  refine ⟨rfl, ?_⟩
  rcases hcb : cb Proc m with ⟨o, m1⟩
  cases o with
  | normal => rw [hcb] at hf; exact absurd hf (by simp)
  | exception c' =>
      by_cases hp : Exception = 0 <;>
        simp [microseh_HandlerStub, hcb, exceptHandlerBody, hp]

/-- Witness for C6 at the concrete faulting callback. -/
theorem handlerStub_catch_all_witness :
    (exceptFilter 0xC0000005).2 = EXCEPTION_EXECUTE_HANDLER ∧
    (microseh_HandlerStub cbFault () 5 memInit).status = MS_CATCHED :=
  handlerStub_catch_all cbFault () 5 memInit 0xC0000005 rfl

/-- Inner callback of the nesting scenario: faults with code `c`. -/
def innerFaulting (c : Nat) : Callback Unit :=
  fun _ m => (ExecOutcome.exception c, m)

/-- Outer callback of the nesting scenario: itself invokes the trampoline
on the faulting inner callback, with inner record address `ip`, and then
returns normally (the inner protected region caught the inner fault). -/
def outerNesting (c ip : Nat) : Callback Unit :=
  fun _ m =>
    (ExecOutcome.normal, (microseh_HandlerStub (innerFaulting c) () ip m).mem)

/-- Claim C7: nested invocations are independent — the inner call returns
`MS_CATCHED` with the inner fault's code, and the outer call, whose
callback invokes the trampoline on the faulting inner callback and then
returns normally, independently returns `MS_SUCCEEDED`. -/
theorem handlerStub_nested (c ip op : Nat) (m : Mem)
    (hip : ip ≠ 0) (hlt : c < UINT32_MOD) :
    (microseh_HandlerStub (innerFaulting c) () ip m).status = MS_CATCHED ∧
    ((microseh_HandlerStub (innerFaulting c) () ip m).mem ip).Code = c ∧
    (microseh_HandlerStub (outerNesting c ip) () op m).status = MS_SUCCEEDED := by
  refine ⟨?_, ?_, ?_⟩
  · simp [microseh_HandlerStub, innerFaulting, exceptHandlerBody, hip]
  · simp [microseh_HandlerStub, innerFaulting, exceptHandlerBody, hip,
      exceptFilter, memStore, Nat.mod_eq_of_lt hlt]
  · simp [microseh_HandlerStub, outerNesting]

/-- Witness for C7: inner integer-overflow-style fault code, inner record
at address 5, outer record at address 9. -/
theorem handlerStub_nested_witness :
    (microseh_HandlerStub (innerFaulting 0xC0000094) () 5 memInit).status =
      MS_CATCHED ∧
    ((microseh_HandlerStub (innerFaulting 0xC0000094) () 5 memInit).mem 5).Code =
      0xC0000094 ∧
    (microseh_HandlerStub (outerNesting 0xC0000094 5) () 9 memInit).status =
      MS_SUCCEEDED :=
  handlerStub_nested 0xC0000094 5 9 memInit (by decide)
    (by norm_num [UINT32_MOD])

/-- Claim C8: the trampoline consults the callback only at the given
context `Proc` and entry memory (the opaque context is passed through
unmodified and never interpreted — two callbacks agreeing at `(Proc, m)`
yield identical invocation results), and it has no side effect beyond the
callback's own: away from the record address `Exception`, the final memory
is exactly what the callback left. -/
theorem handlerStub_ctx_passthrough {Ctx : Type} (cb cb' : Callback Ctx)
    (Proc : Ctx) (Exception : Nat) (m : Mem)
    (h : cb Proc m = cb' Proc m) :
    microseh_HandlerStub cb Proc Exception m =
      microseh_HandlerStub cb' Proc Exception m ∧
    (∀ a, a ≠ Exception →
      (microseh_HandlerStub cb Proc Exception m).mem a = (cb Proc m).2 a) := by
  constructor
  · unfold microseh_HandlerStub
    rw [h]
  · intro a ha
    rcases hcb : cb Proc m with ⟨o, m1⟩
    cases o with
    | normal => simp [microseh_HandlerStub, hcb]
    | exception c =>
        by_cases hp : Exception = 0 <;>
          simp [microseh_HandlerStub, hcb, exceptHandlerBody, hp, memStore, ha]

/-- Witness for C8: two syntactically different callbacks agreeing at the
concrete entry state, address 3 away from the record address 5. -/
theorem handlerStub_ctx_passthrough_witness :
    microseh_HandlerStub cbNormal () 5 memInit =
      microseh_HandlerStub cbNormal2 () 5 memInit ∧
    (microseh_HandlerStub cbNormal () 5 memInit).mem 3 =
      (cbNormal () memInit).2 3 :=
  ⟨(handlerStub_ctx_passthrough cbNormal cbNormal2 () 5 memInit rfl).1,
    (handlerStub_ctx_passthrough cbNormal cbNormal2 () 5 memInit rfl).2 3
      (by decide)⟩

/-- Claim C9: for every combination of build-time target macros, `TG_ARCH`
takes exactly one of the four values (x86, x64, ARM64, unknown fallback)
and the calling-convention tag for the callback and the exported stub is
the one fixed for that architecture case; the selection is a pure function
of the build-time architecture value (two builds with the same `TG_ARCH`
get the same convention), with no runtime input anywhere. -/
theorem tgarch_conv_build_time (f g : BuildFlags) :
    ((TG_ARCH f = TG_ARCH_X86 ∧ selectedConv f = CallingConv.convX86) ∨
     (TG_ARCH f = TG_ARCH_X64 ∧ selectedConv f = CallingConv.convX64) ∨
     (TG_ARCH f = TG_ARCH_ARM64 ∧ selectedConv f = CallingConv.convArm64) ∨
     (TG_ARCH f = TG_ARCH_UNKNOWN ∧ selectedConv f = CallingConv.convUnknown)) ∧
    (TG_ARCH f = TG_ARCH g → selectedConv f = selectedConv g) := by
  rcases f with ⟨a, b, c, d⟩
  rcases g with ⟨a', b', c', d'⟩
  cases a <;> cases b <;> cases c <;> cases d <;>
    cases a' <;> cases b' <;> cases c' <;> cases d' <;> decide

/-- Witness for C9 at two concrete flag vectors with the same selected
architecture (x64 via `_M_X64` and via `_M_AMD64`). -/
theorem tgarch_conv_build_time_witness :
    ((TG_ARCH ⟨false, true, false, false⟩ = TG_ARCH_X86 ∧
        selectedConv ⟨false, true, false, false⟩ = CallingConv.convX86) ∨
     (TG_ARCH ⟨false, true, false, false⟩ = TG_ARCH_X64 ∧
        selectedConv ⟨false, true, false, false⟩ = CallingConv.convX64) ∨
     (TG_ARCH ⟨false, true, false, false⟩ = TG_ARCH_ARM64 ∧
        selectedConv ⟨false, true, false, false⟩ = CallingConv.convArm64) ∨
     (TG_ARCH ⟨false, true, false, false⟩ = TG_ARCH_UNKNOWN ∧
        selectedConv ⟨false, true, false, false⟩ = CallingConv.convUnknown)) ∧
    selectedConv ⟨false, true, false, false⟩ =
      selectedConv ⟨false, false, true, false⟩ :=
  ⟨(tgarch_conv_build_time ⟨false, true, false, false⟩
      ⟨false, false, true, false⟩).1,
    (tgarch_conv_build_time ⟨false, true, false, false⟩
      ⟨false, false, true, false⟩).2 (by decide)⟩

/-- Claim C10: when an exception with accessor value `c` is caught and the
record reference is non-null, the `Code` written into the record is `c`
reduced modulo `2^32` — exactly the value the filter expression captured
at dispatch time — and the whole caught path is the handler body applied
to that filter-captured code (the body never re-reads the accessor). -/
theorem handlerStub_code_truncation {Ctx : Type} (cb : Callback Ctx)
    (Proc : Ctx) (Exception : Nat) (m : Mem) (c : Nat)
    (hf : (cb Proc m).1 = ExecOutcome.exception c) (hp : Exception ≠ 0) :
    ((microseh_HandlerStub cb Proc Exception m).mem Exception).Code =
      c % UINT32_MOD ∧
    ((microseh_HandlerStub cb Proc Exception m).mem Exception).Code =
      (exceptFilter c).1 ∧
    microseh_HandlerStub cb Proc Exception m =
      exceptHandlerBody (exceptFilter c).1 Exception (cb Proc m).2 := by
  rcases hcb : cb Proc m with ⟨o, m1⟩
  cases o with
  | normal => rw [hcb] at hf; exact absurd hf (by simp)
  | exception c' =>
      rw [hcb] at hf
      have hcc : c' = c := by simpa using hf
      subst hcc
      refine ⟨?_, ?_, ?_⟩ <;>
        simp [microseh_HandlerStub, hcb, exceptHandlerBody, exceptFilter,
          memStore, hp]

/-- Witness for C10 with an accessor value `2^32 + 7` exceeding the
`uint32_t` range, so the truncation is visible: the stored code is `7`. -/
theorem handlerStub_code_truncation_witness :
    ((microseh_HandlerStub (innerFaulting (2 ^ 32 + 7)) () 5 memInit).mem 5).Code =
      (2 ^ 32 + 7) % UINT32_MOD ∧
    ((microseh_HandlerStub (innerFaulting (2 ^ 32 + 7)) () 5 memInit).mem 5).Code =
      (exceptFilter (2 ^ 32 + 7)).1 ∧
    microseh_HandlerStub (innerFaulting (2 ^ 32 + 7)) () 5 memInit =
      exceptHandlerBody (exceptFilter (2 ^ 32 + 7)).1 5
        (innerFaulting (2 ^ 32 + 7) () memInit).2 :=
  handlerStub_code_truncation (innerFaulting (2 ^ 32 + 7)) () 5 memInit
    (2 ^ 32 + 7) rfl (by decide)
